import Mathlib

/-
Verification development for the github_listener daemon
(src/github_listener.py).  The Python source is shallowly embedded:
pure string manipulation is translated to Lean functions on lists of
characters and byte values (Nat below 256), and the effectful parts
(filesystem, subprocesses, sockets) are driven by explicit environment
records whose boolean fields state whether each external operation
succeeds.  Definitions keep the source names where Lean allows it.
-/

/-- Byte values are modelled as natural numbers below 256. -/
abbrev Byte := Nat

/-- Python str.isspace for the characters exercised by this program:
the ASCII whitespace characters, the field separators 0x1c..0x1f, and
the Unicode spaces 0x85 and 0xa0.  Other Unicode space characters are
not produced by any input considered here. -/
def isPySpace (c : Char) : Bool :=
  c = ' ' || c = '\t' || c = '\n' || c = '\r' || c = '\x0b' || c = '\x0c'
    || (28 ≤ c.toNat && c.toNat ≤ 31) || c.toNat = 133 || c.toNat = 160

/-- Python str.strip with no argument: drop leading and trailing
whitespace characters. -/
def pyStrip (l : List Char) : List Char :=
  ((l.dropWhile isPySpace).reverse.dropWhile isPySpace).reverse

/-- Is the byte a UTF-8 continuation byte (10xxxxxx). -/
def utf8Cont (b : Byte) : Bool := 128 ≤ b && b < 192

/-- Admissible first continuation byte for a three-byte lead, ruling
out overlong encodings (lead 0xe0) and surrogates (lead 0xed). -/
def utf8Cont3a (b c1 : Byte) : Bool :=
  if b = 224 then 160 ≤ c1 && c1 ≤ 191
  else if b = 237 then 128 ≤ c1 && c1 ≤ 159
  else utf8Cont c1

/-- Admissible first continuation byte for a four-byte lead, ruling
out overlong encodings (lead 0xf0) and values above U+10FFFF (lead
0xf4). -/
def utf8Cont4a (b c1 : Byte) : Bool :=
  if b = 240 then 144 ≤ c1 && c1 ≤ 191
  else if b = 244 then 128 ≤ c1 && c1 ≤ 143
  else utf8Cont c1

/-- Worker for decodeUtf8Ignore; the fuel argument bounds the number
of steps and is instantiated with the length of the byte list. -/
def decodeAux : Nat → List Byte → List Char
  | 0, _ => []
  | _, [] => []
  | Nat.succ fuel, b :: rest =>
    if b < 128 then Char.ofNat b :: decodeAux fuel rest
    else if 194 ≤ b && b ≤ 223 then
      match rest with
      | [] => []
      | c1 :: r2 =>
        if utf8Cont c1 then
          Char.ofNat ((b - 192) * 64 + (c1 - 128)) :: decodeAux fuel r2
        else decodeAux fuel rest
    else if 224 ≤ b && b ≤ 239 then
      match rest with
      | [] => []
      | c1 :: r2 =>
        if utf8Cont3a b c1 then
          match r2 with
          | [] => []
          | c2 :: r3 =>
            if utf8Cont c2 then
              Char.ofNat ((b - 224) * 4096 + (c1 - 128) * 64 + (c2 - 128))
                :: decodeAux fuel r3
            else decodeAux fuel r2
        else decodeAux fuel rest
    else if 240 ≤ b && b ≤ 244 then
      match rest with
      | [] => []
      | c1 :: r2 =>
        if utf8Cont4a b c1 then
          match r2 with
          | [] => []
          | c2 :: r3 =>
            if utf8Cont c2 then
              match r3 with
              | [] => []
              | c3 :: r4 =>
                if utf8Cont c3 then
                  Char.ofNat ((b - 240) * 262144 + (c1 - 128) * 4096
                      + (c2 - 128) * 64 + (c3 - 128)) :: decodeAux fuel r4
                else decodeAux fuel r3
            else decodeAux fuel r2
        else decodeAux fuel rest
    else decodeAux fuel rest

/-- Python bytes.decode with encoding utf-8 and errors ignore: decode
well-formed UTF-8 sequences and silently drop the bytes of invalid or
truncated sequences. -/
def decodeUtf8Ignore (bs : List Byte) : List Char :=
  decodeAux bs.length bs

/-- UTF-8 encoding of a single character, as Python str.encode
produces it. -/
def encodeChar (c : Char) : List Byte :=
  let n := c.toNat
  if n < 128 then [n]
  else if n < 2048 then [192 + n / 64, 128 + n % 64]
  else if n < 65536 then [224 + n / 4096, 128 + (n / 64) % 64, 128 + n % 64]
  else [240 + n / 262144, 128 + (n / 4096) % 64, 128 + (n / 64) % 64, 128 + n % 64]

/-- Python str.encode with encoding utf-8 over a list of characters. -/
def utf8Encode : List Char → List Byte
  | [] => []
  | c :: rest => encodeChar c ++ utf8Encode rest

def isAsciiDigit (c : Char) : Bool := 48 ≤ c.toNat && c.toNat ≤ 57

def digitVal (c : Char) : Nat := c.toNat - 48

/-- Digit tail of the Python int literal grammar: digits with single
underscores allowed between digits. -/
def digitsAux : Nat → List Char → Option Nat
  | acc, [] => some acc
  | _, ['_'] => none
  | acc, '_' :: c :: rest =>
    if isAsciiDigit c then digitsAux (acc * 10 + digitVal c) rest else none
  | acc, c :: rest =>
    if isAsciiDigit c then digitsAux (acc * 10 + digitVal c) rest else none

/-- Python builtin int applied to a character list: strip whitespace,
read an optional sign and a nonempty digit sequence (underscores
permitted between digits); anything else raises ValueError, modelled
as none.  Non-ASCII digit forms are not produced by the inputs of
this program and are not modelled. -/
def pyIntOfChars (l : List Char) : Option Int :=
  match pyStrip l with
  | [] => none
  | '-' :: c :: rest =>
    if isAsciiDigit c then
      (digitsAux (digitVal c) rest).map (fun n => -(n : Int))
    else none
  | '+' :: c :: rest =>
    if isAsciiDigit c then
      (digitsAux (digitVal c) rest).map (fun n => (n : Int))
    else none
  | c :: rest =>
    if isAsciiDigit c then
      (digitsAux (digitVal c) rest).map (fun n => (n : Int))
    else none

/-- Python builtin int applied to a string. -/
def pyParseInt (s : String) : Option Int := pyIntOfChars s.toList

/-- Does the first list occur as the initial segment of the second. -/
def listStarts : List Char → List Char → Bool
  | [], _ => true
  | _ :: _, [] => false
  | p :: ps, c :: cs => p == c && listStarts ps cs

/-- Does the first list occur as a contiguous segment of the second. -/
def listHasSub : List Char → List Char → Bool
  | n, [] => n.isEmpty
  | n, c :: t => listStarts n (c :: t) || listHasSub n t

/-- Python substring containment: needle in hay. -/
def strContains (hay needle : String) : Bool :=
  listHasSub needle.toList hay.toList

/-- Remove the given initial segment, or fail. -/
def dropStart? : List Char → List Char → Option (List Char)
  | [], l => some l
  | _ :: _, [] => none
  | p :: ps, c :: cs => if p = c then dropStart? ps cs else none

def noNewline (l : List Char) : Bool := l.all (fun c => c != '\n')

/-- Does a slash occur at an interior position (some character before
it and some character after it). -/
def interiorSlash (l : List Char) : Bool :=
  ((l.drop 1).dropLast).contains '/'

/-- The regular expression fragment matched against the part after the
host, namely dot-plus slash dot-plus: no newline anywhere and a slash
with at least one character on each side. -/
def restMatches (rest : List Char) : Bool :=
  noNewline rest && interiorSlash rest

def endsWithGit (l : List Char) : Bool :=
  listStarts (".git".toList.reverse) l.reverse

/-- Validation applied by do_POST, the union of the two re.match
calls anchored at both ends (the input is already stripped, so the
dollar anchor is plain end of string):
the first pattern is caret (https|git)://github com slash dot-plus
slash dot-plus optional-dot-git dollar, where the optional dot-git
group is redundant because the greedy dot-plus absorbs it; the second
is caret git at github com colon dot-plus slash dot-plus dot-git
dollar.  Dot matches any character except newline, so the owner and
repository parts may contain further slashes, spaces and any other
non-newline characters. -/
def matchesGithubUrl (s : String) : Bool :=
  let l := s.toList
  (match dropStart? ("https://github.com/".toList) l with
   | some rest => restMatches rest
   | none => false)
  || (match dropStart? ("git://github.com/".toList) l with
      | some rest => restMatches rest
      | none => false)
  || (match dropStart? ("git@github.com:".toList) l with
      | some rest =>
        endsWithGit rest && restMatches (rest.take (rest.length - 4))
      | none => false)

/-- Repository name extraction of do_POST: re.search for slash
non-slash-plus-lazy optional-dot-git dollar, group one, with the
default value repository when there is no match.  The match must start
at the last slash of the string; the lazy quantifier makes group one
the tail after that slash with one trailing dot-git suffix removed
when that leaves the group nonempty. -/
def repoNameOf (s : String) : String :=
  let l := s.toList
  if l.contains '/' then
    let tail := (l.reverse.takeWhile (fun c => c != '/')).reverse
    if tail.isEmpty then "repository"
    else if endsWithGit tail && 5 ≤ tail.length then
      String.mk (tail.take (tail.length - 4))
    else String.mk tail
  else "repository"

/-- Parsing of the Content-Length header in do_POST: a missing header
or the empty string is treated as zero (the Python truthiness test),
a ValueError from int is treated as zero, and a negative value is
clamped to zero. -/
def contentLengthOf (h : Option String) : Nat :=
  match h with
  | none => 0
  | some s =>
    if s = "" then 0
    else
      match pyParseInt s with
      | none => 0
      | some n => if n < 0 then 0 else n.toNat

/-- The decoded and stripped request body, the github_url local of
do_POST: take the declared number of bytes from the stream, decode
them as UTF-8 with invalid sequences ignored, and strip whitespace. -/
def decodedUrl (cl : Nat) (stream : List Byte) : String :=
  String.mk (pyStrip (decodeUtf8Ignore (stream.take cl)))

/-- Environment of one do_POST execution: outcomes of the external
operations it may perform, in program order.  readRaises injects an
unexpected exception from rfile.read; mkdtempOk is tempfile.mkdtemp
succeeding with directory mkdtempDir; cloneOk is the git subprocess
exiting zero, with cloneErrText the text chosen from its stderr or
stdout otherwise; editorOk is open_editor returning True; rmtreeOk is
shutil.rmtree actually removing the tree (its errors are ignored). -/
structure CloneEnv where
  readRaises : Bool
  readErrText : String
  mkdtempOk : Bool
  mkdtempDir : String
  mkdtempErrText : String
  cloneOk : Bool
  cloneErrText : String
  editorOk : Bool
  rmtreeOk : Bool
deriving DecidableEq

/-- Result of the try body of do_POST, before the finally block:
response status and body so far, the clone_target_dir variable, and
bookkeeping on what was invoked. -/
structure TryResult where
  status : Nat
  body : String
  cloneTargetDir : Option String
  cloneInvoked : Bool
  bytesRead : Nat
deriving DecidableEq

/-- The try body of do_POST together with the two except clauses,
translated branch by branch from src/github_listener.py lines
204-274. -/
def tryBlock (env : CloneEnv) (cl : Nat) (stream : List Byte) : TryResult :=
  if env.readRaises then
    { status := 500
      body := "An unexpected error occurred: " ++ env.readErrText
      cloneTargetDir := none, cloneInvoked := false, bytesRead := 0 }
  else
    if cl = 0 ∨ decodedUrl cl stream = "" then
      { status := 400
        body := "Error: No content in POST request or empty URL."
        cloneTargetDir := none, cloneInvoked := false
        bytesRead := (stream.take cl).length }
    else if matchesGithubUrl (decodedUrl cl stream) then
      if env.mkdtempOk then
        if env.cloneOk then
          if env.editorOk then
            { status := 200
              body := "Success: Cloned '" ++ repoNameOf (decodedUrl cl stream)
                ++ "' and opened in VS Code at '" ++ env.mkdtempDir ++ "'."
              cloneTargetDir := some env.mkdtempDir, cloneInvoked := true
              bytesRead := (stream.take cl).length }
          else
            { status := 500
              body := "Error: Cloned '" ++ repoNameOf (decodedUrl cl stream)
                ++ "' but failed to open in VS Code."
              cloneTargetDir := some env.mkdtempDir, cloneInvoked := true
              bytesRead := (stream.take cl).length }
        else
          { status := 500
            body := "Error: Failed to clone '" ++ decodedUrl cl stream
              ++ "'. Git output: " ++ env.cloneErrText
            cloneTargetDir := some env.mkdtempDir, cloneInvoked := true
            bytesRead := (stream.take cl).length }
      else
        { status := 500
          body := "An unexpected error occurred: " ++ env.mkdtempErrText
          cloneTargetDir := none, cloneInvoked := false
          bytesRead := (stream.take cl).length }
    else
      { status := 400
        body := "Error: Invalid GitHub URL: '" ++ decodedUrl cl stream ++ "'."
        cloneTargetDir := none, cloneInvoked := false
        bytesRead := (stream.take cl).length }

/-- Observable outcome of one whole do_POST execution, after the
finally block ran: the single response that was sent (status, body,
its UTF-8 bytes and the Content-Length header value), and the
filesystem facts the claims are about. -/
structure PostResult where
  status : Nat
  body : String
  bytesRead : Nat
  dirCreated : Bool
  cloneInvoked : Bool
  rmtreeInvoked : Bool
  dirExists : Bool
  responseBytes : List Byte
  contentLengthSent : Nat
  responsesSent : Nat
deriving DecidableEq

/-- The finally block of do_POST, src/github_listener.py lines
275-290: remove the created directory when the status is at least 400
(rmtree errors ignored, so the directory survives a failing rmtree),
then send exactly one response whose Content-Length header is the
byte length of the UTF-8 encoded body. -/
def finallyBlock (t : TryResult) (rmtreeOk : Bool) : PostResult :=
  { status := t.status
    body := t.body
    bytesRead := t.bytesRead
    dirCreated := t.cloneTargetDir.isSome
    cloneInvoked := t.cloneInvoked
    rmtreeInvoked := decide (400 ≤ t.status) && t.cloneTargetDir.isSome
    dirExists := t.cloneTargetDir.isSome
      && !((decide (400 ≤ t.status) && t.cloneTargetDir.isSome) && rmtreeOk)
    responseBytes := utf8Encode t.body.toList
    contentLengthSent := (utf8Encode t.body.toList).length
    responsesSent := 1 }

/-- Full do_POST: Content-Length parsing, the try body with its
except clauses, and the finally block. -/
def do_POST (env : CloneEnv) (clHeader : Option String) (stream : List Byte) :
    PostResult :=
  finallyBlock (tryBlock env (contentLengthOf clHeader) stream) env.rmtreeOk

/-- Exit taken by check_and_exit_if_already_running or its helper
create_pid_file: the acquired state, or one of the three sys.exit(1)
paths, distinguished by the message printed. -/
inductive AcquireResult where
  | acquired
  | exitAlreadyRunning (pid : Int)
  | exitStaleRemoveFailed
  | exitWriteFailed
deriving DecidableEq

/-- Process exit status produced by each acquire outcome: none when
the process continues into the server, some 1 for every sys.exit(1)
path. -/
def acquireExitCode : AcquireResult → Option Nat
  | .acquired => none
  | .exitAlreadyRunning _ => some 1
  | .exitStaleRemoveFailed => some 1
  | .exitWriteFailed => some 1

/-- create_pid_file: write the current process id to the marker, or
exit non-zero when the filesystem refuses; the marker location holds
nothing when the write fails, since the stale marker was already
removed. -/
def create_pid_file (writeOk : Bool) (myPid : Int) :
    AcquireResult × Option String :=
  if writeOk then (.acquired, some (toString myPid)) else (.exitWriteFailed, none)

/-- check_and_exit_if_already_running over an explicit marker state:
the marker argument is the content of the PID file when it exists;
alive is os.kill with signal zero succeeding for a given pid;
removeOk and writeOk are os.remove and the marker write succeeding.
The Python truthiness test, if pid and is_process_running(pid), makes
a stored zero fall to the stale branch. -/
def check_and_exit_if_already_running (marker : Option String)
    (alive : Int → Bool) (removeOk writeOk : Bool) (myPid : Int) :
    AcquireResult × Option String :=
  match marker with
  | none => create_pid_file writeOk myPid
  | some content =>
    match pyParseInt content with
    | some pid =>
      if pid ≠ 0 ∧ alive pid = true then (.exitAlreadyRunning pid, some content)
      else if removeOk then create_pid_file writeOk myPid
      else (.exitStaleRemoveFailed, some content)
    | none =>
      if removeOk then create_pid_file writeOk myPid
      else (.exitStaleRemoveFailed, some content)

/-- cleanup_pid_file over an explicit marker state: remove the marker
only when its content parses to the current process id; every failure
(absent marker, unreadable content, foreign pid, failing os.remove)
is swallowed and leaves the marker untouched.  The source reads
int of the stripped content; pyParseInt strips internally. -/
def cleanup_pid_file (marker : Option String) (myPid : Int)
    (removeOk : Bool) : Option String :=
  match marker with
  | none => none
  | some content =>
    match pyParseInt content with
    | some pid =>
      if pid = myPid then (if removeOk then none else some content)
      else some content
    | none => some content

/-- Availability of the three notification backends probed by
show_notification, in its priority order. -/
structure NotifyEnv where
  hasNotifySend : Bool
  hasKdialog : Bool
  hasZenity : Bool
deriving DecidableEq

/-- Observable behaviour of one show_notification call: the backend
command launched if any, whether the caller waited for that backend
process to finish (subprocess.run waits, subprocess.Popen does not),
and the synchronous console line that is always printed. -/
structure NotifyResult where
  cmd : Option (List String)
  waited : Bool
  consoleWritten : Bool
deriving DecidableEq

/-- show_notification: pick the first available backend among
notify-send, kdialog, zenity; launch kdialog and zenity detached via
Popen but run notify-send synchronously via subprocess.run; always
print to the console afterwards.  The dispatch reproduces the source
test, kdialog or zenity occurring in the first argv element. -/
def show_notification (env : NotifyEnv) (message title type_ : String) :
    NotifyResult :=
  let timeout_ms : Nat := if type_ = "info" then 3000 else 5000
  let cmd? : Option (List String) :=
    if env.hasNotifySend then
      some ["notify-send", "-t", toString timeout_ms, title, message]
    else if env.hasKdialog then
      some ["kdialog", "--passivepopup", message, toString (timeout_ms / 1000),
            "--title", title]
    else if env.hasZenity then
      some ["zenity", "--notification", "--text=" ++ title ++ ": " ++ message]
    else none
  match cmd? with
  | none => { cmd := none, waited := false, consoleWritten := true }
  | some cmd =>
    let head := cmd.headD ""
    let detached := strContains head "kdialog" || strContains head "zenity"
    { cmd := some cmd, waited := !detached, consoleWritten := true }

/-- Is the list a single path segment: nonempty and without a slash. -/
def segOk (l : List Char) : Bool := !l.isEmpty && !(l.contains '/')

/-- Does the list consist of exactly two nonempty slash-free segments
separated by one slash. -/
def twoSegs (l : List Char) : Bool :=
  let before := l.takeWhile (fun c => c != '/')
  match l.drop before.length with
  | '/' :: after => segOk before && segOk after
  | _ => false

/-- Statement of the specification, for comparison with the source
regular expressions: the three accepted GitHub URL shapes named by
the spec, https://github.com/owner/repo with optional .git,
git://github.com/owner/repo with optional .git, and
git@github.com:owner/repo.git, with owner and repo single nonempty
path segments. -/
def specGithubShapes (s : String) : Bool :=
  let l := s.toList
  let webShape : List Char → Bool := fun rest =>
    twoSegs rest || (endsWithGit rest && twoSegs (rest.take (rest.length - 4)))
  (match dropStart? ("https://github.com/".toList) l with
   | some rest => webShape rest
   | none => false)
  || (match dropStart? ("git://github.com/".toList) l with
      | some rest => webShape rest
      | none => false)
  || (match dropStart? ("git@github.com:".toList) l with
      | some rest => endsWithGit rest && twoSegs (rest.take (rest.length - 4))
      | none => false)

/-- Environment in which every external operation succeeds. -/
def envAllOk : CloneEnv :=
  { readRaises := false, readErrText := ""
    mkdtempOk := true, mkdtempDir := "/home/user/Desktop/widgets_k1x2"
    mkdtempErrText := "", cloneOk := true, cloneErrText := ""
    editorOk := true, rmtreeOk := true }

/-- Environment in which the clone succeeds but the editor launch
fails to start. -/
def envEditorFails : CloneEnv :=
  { envAllOk with editorOk := false }

/-- Environment in which the git clone exits non-zero. -/
def envCloneFails : CloneEnv :=
  { envAllOk with cloneOk := false, cloneErrText := "fatal: repository not found" }

/-- Liveness oracle under which every pid is alive. -/
def aliveAlways : Int → Bool := fun _ => true

/-- Liveness oracle under which no pid is alive. -/
def aliveNever : Int → Bool := fun _ => false

/-- CloneEnv with the rmtree success flag replaced. -/
def setRmtree (env : CloneEnv) (b : Bool) : CloneEnv :=
  { env with rmtreeOk := b }

/-- Replacing the rmtree success flag does not change the try body,
which never consults it. -/
theorem tryBlock_setRmtree (env : CloneEnv) (b : Bool) (cl : Nat) (s : List Byte) :
    tryBlock (setRmtree env b) cl s = tryBlock env cl s := by
  cases env
  rfl

/-- Every branch of the try body produces status 200, 400 or 500. -/
theorem tryBlock_status_cases (env : CloneEnv) (cl : Nat) (s : List Byte) :
    (tryBlock env cl s).status = 200 ∨ (tryBlock env cl s).status = 400 ∨
      (tryBlock env cl s).status = 500 := by
  unfold tryBlock
  repeat' split
  all_goals simp

/-- When rfile.read does not raise, every branch of the try body has
read exactly the prefix of the stream of the declared length. -/
theorem tryBlock_bytesRead (env : CloneEnv) (cl : Nat) (s : List Byte)
    (hr : env.readRaises = false) :
    (tryBlock env cl s).bytesRead = (s.take cl).length := by
  unfold tryBlock
  rw [hr]
  repeat' split
  all_goals simp_all

/-- Claim C1, counterexample: with the clone succeeding and the
editor launch failing to start, do_POST returns status 500 but the
created temporary directory does NOT survive: the finally block
removes it, because its cleanup condition is status at least 400 and
a directory was created, which this case satisfies.  The claim says
the directory still exists after handle returns; here it does not. -/
theorem c1_preserved_dir_counterexample :
    (do_POST envEditorFails (some "31")
        (utf8Encode "https://github.com/acme/widgets".toList)).status = 500 ∧
    (do_POST envEditorFails (some "31")
        (utf8Encode "https://github.com/acme/widgets".toList)).dirCreated = true ∧
    (do_POST envEditorFails (some "31")
        (utf8Encode "https://github.com/acme/widgets".toList)).dirExists = false := by
  decide

/-- Claim C1 as amended: if the clone succeeds but the editor launch
fails to start, do_POST returns status 500, a directory was created,
and the cleanup rule of the finally block removes it exactly as in
every other failure outcome with a created directory. -/
theorem c1_editor_fail_cleanup (env : CloneEnv) (clHeader : Option String)
    (stream : List Byte) (hr : env.readRaises = false)
    (hm : env.mkdtempOk = true) (hc : env.cloneOk = true)
    (he : env.editorOk = false)
    (hcl : ¬ contentLengthOf clHeader = 0)
    (hu : matchesGithubUrl (decodedUrl (contentLengthOf clHeader) stream) = true) :
    (do_POST env clHeader stream).status = 500 ∧
    (do_POST env clHeader stream).dirCreated = true ∧
    (do_POST env clHeader stream).rmtreeInvoked = true ∧
    (env.rmtreeOk = true → (do_POST env clHeader stream).dirExists = false) := by
  have hne : ¬ (contentLengthOf clHeader = 0 ∨
      decodedUrl (contentLengthOf clHeader) stream = "") := by
    rintro (h | h)
    · exact hcl h
    · rw [h] at hu
      exact absurd hu (by decide)
  simp [do_POST, finallyBlock, tryBlock, hr, hm, hc, he, hu, hne]

/-- Witness for c1_editor_fail_cleanup at a concrete request. -/
theorem c1_editor_fail_cleanup_witness :
    (do_POST envEditorFails (some "31")
        (utf8Encode "https://github.com/acme/widgets".toList)).status = 500 ∧
    (do_POST envEditorFails (some "31")
        (utf8Encode "https://github.com/acme/widgets".toList)).dirCreated = true ∧
    (do_POST envEditorFails (some "31")
        (utf8Encode "https://github.com/acme/widgets".toList)).rmtreeInvoked = true ∧
    (envEditorFails.rmtreeOk = true →
      (do_POST envEditorFails (some "31")
        (utf8Encode "https://github.com/acme/widgets".toList)).dirExists = false) :=
  c1_editor_fail_cleanup envEditorFails (some "31")
    (utf8Encode "https://github.com/acme/widgets".toList)
    rfl rfl rfl rfl (by decide) (by decide)

/-- Claim C2, counterexample: the body https://github.com/a/b/c does
not match any of the three owner slash repository shapes named by the
spec (specGithubShapes is false on it), yet the source regular
expression accepts it, the clone is attempted, a directory is created
and with a succeeding clone the status is 200, not 400. -/
theorem c2_shape_counterexample :
    specGithubShapes "https://github.com/a/b/c" = false ∧
    matchesGithubUrl "https://github.com/a/b/c" = true ∧
    (do_POST envAllOk (some "24")
        (utf8Encode "https://github.com/a/b/c".toList)).status = 200 ∧
    (do_POST envAllOk (some "24")
        (utf8Encode "https://github.com/a/b/c".toList)).dirCreated = true := by
  decide

/-- Claim C2 as amended: for every request body whose trimmed decoded
text fails the validation actually enforced by the source regular
expressions, do_POST returns status 400, creates no directory and
never invokes the clone tool. -/
theorem c2_invalid_url_rejected (env : CloneEnv) (clHeader : Option String)
    (stream : List Byte) (hr : env.readRaises = false)
    (hu : matchesGithubUrl (decodedUrl (contentLengthOf clHeader) stream) = false) :
    (do_POST env clHeader stream).status = 400 ∧
    (do_POST env clHeader stream).dirCreated = false ∧
    (do_POST env clHeader stream).cloneInvoked = false := by
  by_cases h0 : contentLengthOf clHeader = 0 ∨
      decodedUrl (contentLengthOf clHeader) stream = ""
  · simp [do_POST, finallyBlock, tryBlock, hr, h0]
  · simp [do_POST, finallyBlock, tryBlock, hr, h0, hu]

/-- Witness for c2_invalid_url_rejected at a concrete request. -/
theorem c2_invalid_url_rejected_witness :
    (do_POST envAllOk (some "9") (utf8Encode "not-a-url".toList)).status = 400 ∧
    (do_POST envAllOk (some "9") (utf8Encode "not-a-url".toList)).dirCreated = false ∧
    (do_POST envAllOk (some "9") (utf8Encode "not-a-url".toList)).cloneInvoked = false :=
  c2_invalid_url_rejected envAllOk (some "9") (utf8Encode "not-a-url".toList)
    rfl (by decide)

/-- Claim C3: whenever the final outcome status is at least 400 and a
target directory was created, the finally block invokes the recursive
deletion, the directory is gone when the deletion succeeds, and a
failing deletion is ignored: the status and body of the outcome are
identical whether rmtree succeeds or fails. -/
theorem c3_cleanup_on_failure (env : CloneEnv) (clHeader : Option String)
    (stream : List Byte) (b : Bool)
    (hs : 400 ≤ (do_POST env clHeader stream).status)
    (hd : (do_POST env clHeader stream).dirCreated = true) :
    (do_POST env clHeader stream).rmtreeInvoked = true ∧
    (env.rmtreeOk = true → (do_POST env clHeader stream).dirExists = false) ∧
    (do_POST (setRmtree env b) clHeader stream).status =
      (do_POST env clHeader stream).status ∧
    (do_POST (setRmtree env b) clHeader stream).body =
      (do_POST env clHeader stream).body := by
  have hts : 400 ≤ (tryBlock env (contentLengthOf clHeader) stream).status := hs
  have htd : (tryBlock env (contentLengthOf clHeader) stream).cloneTargetDir.isSome
      = true := hd
  refine ⟨?_, ?_, ?_, ?_⟩
  · show (decide (400 ≤ _) && _) = true
    simp [hts, htd]
  · intro hrm
    show (_ && !_) = false
    simp [hts, htd, hrm]
  · show (tryBlock (setRmtree env b) _ _).status = _
    rw [tryBlock_setRmtree]
    rfl
  · show (tryBlock (setRmtree env b) _ _).body = _
    rw [tryBlock_setRmtree]
    rfl

/-- Witness for c3_cleanup_on_failure at a failing clone. -/
theorem c3_cleanup_on_failure_witness :
    (do_POST envCloneFails (some "31")
        (utf8Encode "https://github.com/acme/widgets".toList)).rmtreeInvoked = true ∧
    (envCloneFails.rmtreeOk = true →
      (do_POST envCloneFails (some "31")
        (utf8Encode "https://github.com/acme/widgets".toList)).dirExists = false) ∧
    (do_POST (setRmtree envCloneFails false) (some "31")
        (utf8Encode "https://github.com/acme/widgets".toList)).status =
      (do_POST envCloneFails (some "31")
        (utf8Encode "https://github.com/acme/widgets".toList)).status ∧
    (do_POST (setRmtree envCloneFails false) (some "31")
        (utf8Encode "https://github.com/acme/widgets".toList)).body =
      (do_POST envCloneFails (some "31")
        (utf8Encode "https://github.com/acme/widgets".toList)).body :=
  c3_cleanup_on_failure envCloneFails (some "31")
    (utf8Encode "https://github.com/acme/widgets".toList) false
    (by decide) (by decide)

/-- Claim C4: when the marker for the port holds a live positive pid,
acquire exits with the already-running error and leaves the marker
alone; when the stored process is dead, acquire removes the stale
marker, succeeds, and the marker afterwards holds the current process
id. -/
theorem c4_acquire_live_dead (s : String) (pid : Int) (alive : Int → Bool)
    (removeOk writeOk : Bool) (myPid : Int)
    (hp : pyParseInt s = some pid) (hpos : 0 < pid) :
    (alive pid = true →
      check_and_exit_if_already_running (some s) alive removeOk writeOk myPid =
        (.exitAlreadyRunning pid, some s)) ∧
    (alive pid = false → removeOk = true → writeOk = true →
      check_and_exit_if_already_running (some s) alive removeOk writeOk myPid =
        (.acquired, some (toString myPid))) := by
  constructor
  · intro ha
    simp [check_and_exit_if_already_running, hp, ha, show pid ≠ 0 by omega]
  · intro ha hro hwo
    simp [check_and_exit_if_already_running, create_pid_file, hp, ha, hro, hwo]

/-- Witness for c4_acquire_live_dead with marker content 42 and
current process id 7, under an all-alive and an all-dead oracle. -/
theorem c4_acquire_live_dead_witness :
    check_and_exit_if_already_running (some "42") aliveAlways true true 7 =
      (.exitAlreadyRunning 42, some "42") ∧
    check_and_exit_if_already_running (some "42") aliveNever true true 7 =
      (.acquired, some "7") := by
  constructor
  · exact (c4_acquire_live_dead "42" 42 aliveAlways true true 7
      (by decide) (by decide)).1 rfl
  · exact (c4_acquire_live_dead "42" 42 aliveNever true true 7
      (by decide) (by decide)).2 rfl rfl rfl

/-- Claim C5, counterexample: with every backend available the first
of the priority list, notify-send, is selected, and the caller DOES
wait for the backend process: the source runs it through
subprocess.run, which blocks until completion, while only kdialog and
zenity go through the non-waiting Popen. -/
theorem c5_popup_wait_counterexample :
    ((show_notification ⟨true, true, true⟩ "message" "title" "error").cmd).isSome
      = true ∧
    (show_notification ⟨true, true, true⟩ "message" "title" "error").waited
      = true := by
  decide

/-- Claim C5 as amended: console output is always synchronous; when
notify-send is the selected backend the caller waits for it, and in
every other case, kdialog, zenity or no backend, the caller does not
wait; a backend command is launched exactly when some backend is
available. -/
theorem c5_notify_dispatch (env : NotifyEnv) (message title type_ : String) :
    (show_notification env message title type_).consoleWritten = true ∧
    (env.hasNotifySend = true →
      (show_notification env message title type_).waited = true) ∧
    (env.hasNotifySend = false →
      (show_notification env message title type_).waited = false) ∧
    ((show_notification env message title type_).cmd.isSome =
      (env.hasNotifySend || env.hasKdialog || env.hasZenity)) := by
  obtain ⟨ns, kd, ze⟩ := env
  cases ns <;> cases kd <;> cases ze <;>
    simp [show_notification, strContains, listHasSub, listStarts]

/-- Witness for c5_notify_dispatch at two concrete environments. -/
theorem c5_notify_dispatch_witness :
    (show_notification ⟨true, false, false⟩ "m" "t" "info").waited = true ∧
    (show_notification ⟨false, false, true⟩ "m" "t" "info").waited = false :=
  ⟨(c5_notify_dispatch ⟨true, false, false⟩ "m" "t" "info").2.1 rfl,
   (c5_notify_dispatch ⟨false, false, true⟩ "m" "t" "info").2.2.1 rfl⟩

/-- Claim C6: a request whose body decodes and strips to the empty
string is answered with status 400, the clone tool is not invoked and
no directory is created. -/
theorem c6_empty_body_rejected (env : CloneEnv) (clHeader : Option String)
    (stream : List Byte) (hr : env.readRaises = false)
    (hu : decodedUrl (contentLengthOf clHeader) stream = "") :
    (do_POST env clHeader stream).status = 400 ∧
    (do_POST env clHeader stream).cloneInvoked = false ∧
    (do_POST env clHeader stream).dirCreated = false := by
  have h0 : contentLengthOf clHeader = 0 ∨
      decodedUrl (contentLengthOf clHeader) stream = "" := Or.inr hu
  simp [do_POST, finallyBlock, tryBlock, hr, h0]

/-- Witness for c6_empty_body_rejected: a body of one space and one
tab character. -/
theorem c6_empty_body_rejected_witness :
    (do_POST envAllOk (some "2") [32, 9]).status = 400 ∧
    (do_POST envAllOk (some "2") [32, 9]).cloneInvoked = false ∧
    (do_POST envAllOk (some "2") [32, 9]).dirCreated = false :=
  c6_empty_body_rejected envAllOk (some "2") [32, 9] rfl (by decide)

/-- Claim C7: the number of body bytes read equals the declared
Content-Length clamped to zero when the header is absent, negative or
unparsable, and in particular a request with Content-Length -1 and an
empty body is treated as zero length and answered with 400. -/
theorem c7_content_length_clamped (env : CloneEnv) (clHeader : Option String)
    (stream : List Byte) (hr : env.readRaises = false) :
    (contentLengthOf clHeader ≤ stream.length →
      (do_POST env clHeader stream).bytesRead = contentLengthOf clHeader) ∧
    contentLengthOf none = 0 ∧
    contentLengthOf (some "-1") = 0 ∧
    contentLengthOf (some "abc") = 0 ∧
    (do_POST env (some "-1") []).status = 400 := by
  refine ⟨?_, rfl, by decide, by decide, ?_⟩
  · intro hle
    show (tryBlock env (contentLengthOf clHeader) stream).bytesRead = _
    rw [tryBlock_bytesRead env (contentLengthOf clHeader) stream hr,
      List.length_take, Nat.min_eq_left hle]
  · have h0 : contentLengthOf (some "-1") = 0 ∨
        decodedUrl (contentLengthOf (some "-1")) ([] : List Byte) = "" :=
      Or.inl (by decide)
    simp [do_POST, finallyBlock, tryBlock, hr, h0]

/-- Witness for c7_content_length_clamped at a concrete request. -/
theorem c7_content_length_clamped_witness :
    (do_POST envAllOk (some "3") [104, 105, 106, 107]).bytesRead =
      contentLengthOf (some "3") ∧
    (do_POST envAllOk (some "-1") []).status = 400 :=
  ⟨(c7_content_length_clamped envAllOk (some "3") [104, 105, 106, 107] rfl).1
      (by decide),
   (c7_content_length_clamped envAllOk (some "3") [104, 105, 106, 107] rfl).2.2.2.2⟩

/-- Claim C8: cleanup_pid_file is idempotent; it removes the marker
only when the marker content parses to the current process id, and an
absent marker, an unreadable marker, or a marker naming a different
process is left unchanged. -/
theorem c8_release_guarded_idempotent :
    (∀ (m : Option String) (p : Int) (ok : Bool),
      cleanup_pid_file (cleanup_pid_file m p ok) p ok = cleanup_pid_file m p ok) ∧
    (∀ (p : Int) (ok : Bool), cleanup_pid_file none p ok = none) ∧
    (∀ (s : String) (p : Int) (ok : Bool), pyParseInt s ≠ some p →
      cleanup_pid_file (some s) p ok = some s) ∧
    (∀ (s : String) (p : Int), pyParseInt s = some p →
      cleanup_pid_file (some s) p true = none) := by
  refine ⟨?_, fun p ok => rfl, ?_, ?_⟩
  · intro m p ok
    match m with
    | none => rfl
    | some s =>
      cases hp : pyParseInt s with
      | none => simp [cleanup_pid_file, hp]
      | some pid =>
        by_cases hpp : pid = p
        · subst hpp
          cases ok with
          | true => simp [cleanup_pid_file, hp]
          | false => simp [cleanup_pid_file, hp]
        · simp [cleanup_pid_file, hp, hpp]
  · intro s p ok hne
    cases hp : pyParseInt s with
    | none => simp [cleanup_pid_file, hp]
    | some pid =>
      have hpp : ¬ pid = p := fun he => hne (he ▸ hp)
      simp [cleanup_pid_file, hp, hpp]
  · intro s p hp
    simp [cleanup_pid_file, hp]

/-- Witness for c8_release_guarded_idempotent: a marker of a foreign
process survives, a marker of the current process is removed. -/
theorem c8_release_witness :
    cleanup_pid_file (some "99") 7 true = some "99" ∧
    cleanup_pid_file (some "7") 7 true = none :=
  ⟨c8_release_guarded_idempotent.2.2.1 "99" 7 true (by decide),
   c8_release_guarded_idempotent.2.2.2 "7" 7 (by decide)⟩

/-- Claim C9: every do_POST execution, including the ones where an
unexpected exception is injected mid-processing, sends exactly one
response, its status is 200, 400 or 500, and the Content-Length
header value equals the byte length of the UTF-8 encoded body. -/
theorem c9_single_response_invariant (env : CloneEnv) (clHeader : Option String)
    (stream : List Byte) :
    (do_POST env clHeader stream).responsesSent = 1 ∧
    ((do_POST env clHeader stream).status = 200 ∨
      (do_POST env clHeader stream).status = 400 ∨
      (do_POST env clHeader stream).status = 500) ∧
    (do_POST env clHeader stream).contentLengthSent =
      (utf8Encode (do_POST env clHeader stream).body.toList).length := by
  refine ⟨rfl, ?_, rfl⟩
  exact tryBlock_status_cases env (contentLengthOf clHeader) stream

/-- Claim C10: when the marker is stale, unreadable content or a dead
owner, and removing it fails, the process exits with status one and
its own marker is never written; the old marker content is left in
place. -/
theorem c10_stale_remove_abort (s : String) (alive : Int → Bool)
    (writeOk : Bool) (myPid : Int)
    (h : pyParseInt s = none ∨
      ∃ pid, pyParseInt s = some pid ∧ alive pid = false) :
    check_and_exit_if_already_running (some s) alive false writeOk myPid =
      (.exitStaleRemoveFailed, some s) ∧
    acquireExitCode .exitStaleRemoveFailed = some 1 := by
  refine ⟨?_, rfl⟩
  rcases h with h | ⟨pid, hp, ha⟩
  · simp [check_and_exit_if_already_running, h]
  · simp [check_and_exit_if_already_running, hp, ha]

/-- Witness for c10_stale_remove_abort at an unreadable marker. -/
theorem c10_stale_remove_abort_witness :
    check_and_exit_if_already_running (some "garbage") aliveNever false true 7 =
      (.exitStaleRemoveFailed, some "garbage") ∧
    acquireExitCode .exitStaleRemoveFailed = some 1 :=
  c10_stale_remove_abort "garbage" aliveNever true 7 (Or.inl (by decide))
